import Mathlib

/-!
# Verification of the BUYLAND deterministic tile sampler

A shallow embedding, in Lean 4, of the sampling / acceptance-check code of the
repository (three frontend variants plus the payment/email serverless function),
together with theorems settling the specification claims.

Conventions of the embedding:
* JavaScript 32-bit integer arithmetic (`Math.imul`, `>>>`, `^`, `|`) is
  modelled on `Nat` with explicit reduction modulo `2^32`; two's-complement
  signed values are represented by their unsigned bit patterns, which is
  sound because every operation used (`+`, `*`, `xor`, `or`, logical shift,
  `>>> 0`) depends only on the bit pattern modulo `2^32`.
* The floating-point arithmetic that maps a 32-bit draw into a coordinate
  interval, and `toFixed` rounding, are modelled over `ℚ` (exact rationals);
  the final normalisation `v / 2^32` is exact in binary64 as well.
* `Math.cos` (a transcendental double routine, used only by the tile helper)
  is abstracted as an explicit parameter holding the cosine value.
* Asynchronous external services (reverse geocoding, Overpass, e-mail, Stripe)
  are modelled as oracles: a call that may throw is an `Option` result, with
  `none` standing for a thrown error; stateful collaborators are explicit
  state-passing.
-/

set_option maxRecDepth 4000

/-- `2^32`, the modulus of all JavaScript 32-bit integer arithmetic here. -/
def M32 : Nat := 4294967296

/-- `Math.imul a b` on unsigned bit patterns: 32-bit wrapping product. -/
def imul32 (a b : Nat) : Nat := a * b % M32

/-- `hashStrToSeed` (identical in `app.js`, `part_000`, `part_001`):
32-bit FNV-1a fold of the UTF-16 code units of the string. -/
def hashStrToSeed (s : String) : Nat :=
  s.data.foldl (fun h c => imul32 (Nat.xor h c.toNat) 16777619) 2166136261

/-- One step of `mulberry32`: given the 32-bit state, return
(the 32-bit numerator of the emitted value, the new state).
The emitted double is the numerator divided by `2^32`. -/
def mbNext (t : Nat) : Nat × Nat :=
  let t1 := (t + 0x6D2B79F5) % M32
  let x0 := imul32 (Nat.xor t1 (t1 >>> 15)) (t1 ||| 1)
  let x1 := Nat.xor x0 ((x0 + imul32 (Nat.xor x0 (x0 >>> 7)) (x0 ||| 61)) % M32)
  (Nat.xor x1 (x1 >>> 14), t1)

/-- The emitted value of `mulberry32`, normalised into `[0,1)`. -/
def rngRat (v : Nat) : ℚ := (v : ℚ) / 4294967296

/-- `Number(x.toFixed(6))`: round to the nearest multiple of `10⁻⁶`, ties up.
(`Rat.floor` is used rather than `⌊·⌋` so the definition evaluates by kernel
reduction; the two agree, see `round6_mono`.) -/
def round6 (q : ℚ) : ℚ := ((Rat.floor (q * 1000000 + 1/2) : ℤ) : ℚ) / 1000000

/-- `Number(x.toFixed(2))`: round to the nearest multiple of `10⁻²`, ties up. -/
def round2 (q : ℚ) : ℚ := ((Rat.floor (q * 100 + 1/2) : ℤ) : ℚ) / 100

/-- One entry of the `COUNTRY_BOUNDS` table. -/
structure Bounds where
  name : String
  latMin : ℚ
  latMax : ℚ
  lonMin : ℚ
  lonMax : ℚ
deriving DecidableEq, Repr

/-- The `NZ` entry, also the fallback for unknown country codes. -/
def nzBounds : Bounds := ⟨"New Zealand", -47.5, -34.0, 166.0, 179.8⟩

/-- `COUNTRY_BOUNDS` (identical in all three frontend variants). -/
def COUNTRY_BOUNDS (code : String) : Option Bounds :=
  if code = "NZ" then some nzBounds
  else if code = "AU" then some ⟨"Australia", -43.8, -10.0, 112.0, 154.0⟩
  else if code = "US" then some ⟨"USA (lower 48)", 24.5, 49.5, -125.0, -66.5⟩
  else if code = "GB" then some ⟨"United Kingdom", 49.8, 59.0, -8.6, 1.8⟩
  else if code = "JP" then some ⟨"Japan", 30.0, 45.8, 129.0, 145.8⟩
  else none

/-- The template string `${countryCode}|${mode}|${userSeed}|${rerolls}`. -/
def baseStr (countryCode mode userSeed : String) (rerolls : Nat) : String :=
  countryCode ++ "|" ++ mode ++ "|" ++ userSeed ++ "|" ++ toString rerolls

/-- `seed32.toString(16)`: lowercase hexadecimal. -/
def hex32 (n : Nat) : String := ⟨Nat.toDigits 16 n⟩

/-- The seed label `${countryCode}-${mode}-${seed32.toString(16)}`. -/
def seedLabel (countryCode mode : String) (seed32 : Nat) : String :=
  countryCode ++ "-" ++ mode ++ "-" ++ hex32 seed32

/-- The object returned by `rollSpot` in `app.js` (and, minus the `brand`
field, by `rollCenter` in `part_001`). -/
structure Spot where
  country : String
  countryCode : String
  mode : String
  lat : ℚ
  lon : ℚ
  seed : String
  rerolls : Nat
deriving DecidableEq, Repr

namespace App

/-- `rollSpot` from `src/public/app.js`: deterministic two-draw derivation. -/
def rollSpot (countryCode mode userSeed : String) (rerolls : Nat) : Spot :=
  let bounds := (COUNTRY_BOUNDS countryCode).getD nzBounds
  let seed32 := hashStrToSeed (baseStr countryCode mode userSeed rerolls)
  let d1 := mbNext (seed32 % M32)
  let d2 := mbNext d1.2
  let lat := bounds.latMin + rngRat d1.1 * (bounds.latMax - bounds.latMin)
  let lon := bounds.lonMin + rngRat d2.1 * (bounds.lonMax - bounds.lonMin)
  { country := bounds.name, countryCode := countryCode, mode := mode
    lat := round6 lat, lon := round6 lon
    seed := seedLabel countryCode mode seed32, rerolls := rerolls }

end App

namespace V3

/-- `rollCenter` from `src/unnamed/part_001` — same derivation as
`App.rollSpot`; the extra constant `brand` field is omitted from the record
(it is the string literal `"Random Spot Certificate"` and carries no data). -/
def rollCenter (countryCode mode userSeed : String) (rerolls : Nat) : Spot :=
  let bounds := (COUNTRY_BOUNDS countryCode).getD nzBounds
  let seed32 := hashStrToSeed (baseStr countryCode mode userSeed rerolls)
  let d1 := mbNext (seed32 % M32)
  let d2 := mbNext d1.2
  let lat := bounds.latMin + rngRat d1.1 * (bounds.latMax - bounds.latMin)
  let lon := bounds.lonMin + rngRat d2.1 * (bounds.lonMax - bounds.lonMin)
  { country := bounds.name, countryCode := countryCode, mode := mode
    lat := round6 lat, lon := round6 lon
    seed := seedLabel countryCode mode seed32, rerolls := rerolls }

end V3

/-- `Math.min` on exact values. -/
def minQ (a b : ℚ) : ℚ := if a ≤ b then a else b

/-- `Math.max` on exact values. -/
def maxQ (a b : ℚ) : ℚ := if a ≤ b then b else a

/-- `clamp(n,a,b)` (identical in all three frontend variants):
`Math.max(a, Math.min(b,n))`. -/
def clamp (n a b : ℚ) : ℚ := maxQ a (minQ b n)

/-- `Math.abs` on exact values. -/
def absQ (q : ℚ) : ℚ := if q < 0 then -q else q

/-- Truncation toward zero, as JavaScript division-based remainder needs. -/
def qtrunc (q : ℚ) : ℤ := if 0 ≤ q then Rat.floor q else -Rat.floor (-q)

/-- The JavaScript `%` operator on doubles: remainder with the dividend's
sign, `a - b * trunc(a / b)`. -/
def jsMod (a b : ℚ) : ℚ := a - b * (qtrunc (a / b) : ℤ)

namespace V1

/-- `oceanishHeuristic` from `src/unnamed/part_000`. -/
def oceanishHeuristic (lat lon : ℚ) : ℚ :=
  let latScore := 1 - absQ lat / 90
  let lonScore := 1 - absQ (jsMod lon 180) / 180 * 0.2
  clamp (latScore * lonScore) 0 1

/-- `landBiasAccept` from `src/unnamed/part_000`, with the single RNG draw it
consumes passed in as the 32-bit numerator `v`. -/
def landBiasAccept (lat lon : ℚ) (v : Nat) : Bool :=
  let p := oceanishHeuristic lat lon
  decide (rngRat v < clamp (p * 1.15) 0.05 0.95)

/-- The `for (i=0;i<maxTries;i++)` body of `rollSpot` in `part_000`:
`fuel` counts the remaining iterations, `t` is the RNG state.  Returns the
`(lat, lon)` pair left in scope when the loop exits (the JavaScript
initialisation `lat = 0, lon = 0` is the `fuel = 0` base case, unreachable
whenever the loop runs at least once). -/
def rollLoop (b : Bounds) (mode : String) : Nat → Nat → ℚ × ℚ
  | _, 0 => (0, 0)
  | t, fuel + 1 =>
    let d1 := mbNext t
    let d2 := mbNext d1.2
    let lat := b.latMin + rngRat d1.1 * (b.latMax - b.latMin)
    let lon := b.lonMin + rngRat d2.1 * (b.lonMax - b.lonMin)
    if mode ≠ "publicish" then (lat, lon)
    else
      let da := mbNext d2.2
      if landBiasAccept lat lon da.1 then (lat, lon)
      else if fuel = 0 then (lat, lon)
      else rollLoop b mode da.2 fuel

/-- `rollSpot` from `src/unnamed/part_000`: like the `app.js` version but, in
`publicish` mode, with a bounded land-bias rejection-sampling loop. -/
def rollSpot (countryCode mode userSeed : String) (rerolls : Nat) : Spot :=
  let bounds := (COUNTRY_BOUNDS countryCode).getD nzBounds
  let seed32 := hashStrToSeed (baseStr countryCode mode userSeed rerolls)
  let maxTries := if mode = "publicish" then 120 else 40
  let p := rollLoop bounds mode (seed32 % M32) maxTries
  { country := bounds.name, countryCode := countryCode, mode := mode
    lat := round6 p.1, lon := round6 p.2
    seed := seedLabel countryCode mode seed32, rerolls := rerolls }

end V1

/-- Modelled from the spec (§4.1 `derivePoint`), for comparison with the
implementations: concatenate `countryCode|mode|userSeed|attemptNumber`, hash
with the 32-bit FNV-1a fold, seed the mulberry32-style generator, draw
exactly two values, map the first linearly into `[latMin, latMax]` and the
second into `[lonMin, lonMax]`, round both to 6 decimal places. -/
def derivePoint (countryCode mode userSeed : String) (attemptNumber : Nat) : ℚ × ℚ :=
  let bounds := (COUNTRY_BOUNDS countryCode).getD nzBounds
  let seed32 := hashStrToSeed (baseStr countryCode mode userSeed attemptNumber)
  let d1 := mbNext (seed32 % M32)
  let d2 := mbNext d1.2
  (round6 (bounds.latMin + rngRat d1.1 * (bounds.latMax - bounds.latMin)),
   round6 (bounds.lonMin + rngRat d2.1 * (bounds.lonMax - bounds.lonMin)))

/- Smoke tests of the pipeline (values cross-checked against the source). -/
example : hashStrToSeed "NZ|publicish|abc|1" = 0xb6cdbe5d := by decide
example : (App.rollSpot "NZ" "publicish" "abc" 1).lat = -8776557/200000 := by decide!
example : (App.rollSpot "NZ" "publicish" "abc" 1).lon = 174596411/1000000 := by decide!

namespace V3

/-- `metersToLatDeg` from `src/unnamed/part_001`. -/
def metersToLatDeg (m : ℚ) : ℚ := m / 111320

/-- `metersToLonDeg` from `src/unnamed/part_001`.  `Math.cos((latDeg*π)/180)`
is a transcendental double computation; its value is abstracted as the
explicit argument `cosLat`, to which the source's floor clamp
`Math.max(cos, 0.12)` is applied. -/
def metersToLonDeg (cosLat m : ℚ) : ℚ := m / (111320 * maxQ cosLat 0.12)

/-- The object returned by `makeTileFromCenter`; the four corners
`NW/NE/SW/SE` are the pairs `(north, west)`, `(north, east)`,
`(south, west)`, `(south, east)` of the `bounds` field, kept here as
explicit fields. -/
structure Tile where
  sizeMeters : ℚ
  areaM2 : ℚ
  centerLat : ℚ
  centerLon : ℚ
  north : ℚ
  south : ℚ
  east : ℚ
  west : ℚ
  cornerNW : ℚ × ℚ
  cornerNE : ℚ × ℚ
  cornerSW : ℚ × ℚ
  cornerSE : ℚ × ℚ
deriving DecidableEq, Repr

/-- `makeTileFromCenter` from `src/unnamed/part_001` (`cosLat` abstracts
`Math.cos((lat*π)/180)`, see `metersToLonDeg`). -/
def makeTileFromCenter (cosLat lat lon sizeMeters : ℚ) : Tile :=
  let half := sizeMeters / 2
  let dLat := metersToLatDeg half
  let dLon := metersToLonDeg cosLat half
  let north := lat + dLat
  let south := lat - dLat
  let east := lon + dLon
  let west := lon - dLon
  { sizeMeters := sizeMeters, areaM2 := round2 (sizeMeters * sizeMeters)
    centerLat := lat, centerLon := lon
    north := north, south := south, east := east, west := west
    cornerNW := (north, west), cornerNE := (north, east)
    cornerSW := (south, west), cornerSE := (south, east) }

end V3

/-! ### Reverse-geocoding checks

The Nominatim response is modelled by the fields the code reads: `type`,
`category` and `display_name` (strings), plus the truthiness of the address
attributes inspected by `part_001` (`app.js` requests `addressdetails=0` and
reads none of them). -/

/-- Truthiness of the `data.address` attributes used by the code. -/
structure Address where
  road : Bool
  pedestrian : Bool
  footway : Bool
  cycleway : Bool
  city : Bool
  town : Bool
  village : Bool
  hamlet : Bool
  suburb : Bool
  neighbourhood : Bool
  country : Bool
deriving DecidableEq, Repr

/-- A reverse-geocoding response, reduced to the fields the code reads. -/
structure NomResp where
  type : String
  category : String
  display_name : String
  address : Address
deriving DecidableEq, Repr

/-- `String.prototype.toLowerCase` (ASCII range, which covers every keyword
comparison the code performs). -/
def lowerStr (s : String) : String := ⟨s.data.map Char.toLower⟩

/-- Whether `pat` occurs at the head of `l` (helper for `includes`). -/
def leadsWith : List Char → List Char → Bool
  | [], _ => true
  | _ :: _, [] => false
  | a :: as, b :: bs => a == b && leadsWith as bs

/-- `String.prototype.includes`: `hasSub pat l` is true iff `pat` occurs as a
contiguous run inside `l`. -/
def hasSub (pat : List Char) : List Char → Bool
  | [] => leadsWith pat []
  | c :: t => leadsWith pat (c :: t) || hasSub pat t

/-- `hay.includes(pat)` on strings. -/
def strIncludes (hay pat : String) : Bool := hasSub pat.data hay.data

namespace App

/-- The result of `reverseCheck` in `src/public/app.js`. -/
structure CheckA where
  ok : Bool
  looksWater : Bool
  place : String
  rawType : String
  rawCategory : String
deriving DecidableEq, Repr

/-- The `waterTypes` set of `app.js`. -/
def waterTypes : List String :=
  ["ocean", "sea", "bay", "strait", "channel", "water", "river", "lake", "reservoir", "reef"]

/-- The response-classification logic of `reverseCheck` in
`src/public/app.js`, given an HTTP-successful response body. -/
def reverseCheck (resp : NomResp) : CheckA :=
  let type := lowerStr resp.type
  let category := lowerStr resp.category
  let looksWater := waterTypes.contains type
    || strIncludes category "water" || strIncludes category "sea"
    || strIncludes type "ocean" || strIncludes type "sea"
  let display := resp.display_name.trim
  let ok := !looksWater && decide (6 ≤ display.length)
  { ok := ok, looksWater := looksWater
    place := if display = "" then "Unknown" else display
    rawType := if type = "" then "unknown" else type
    rawCategory := if category = "" then "unknown" else category }

end App

namespace V3

/-- The result of `reverseCheckNominatim` in `src/unnamed/part_001`. -/
structure CheckN where
  ok : Bool
  looksWater : Bool
  place : String
  type : String
  category : String
  hasRoadish : Bool
  hasPlaceish : Bool
  hasCountry : Bool
deriving DecidableEq, Repr

/-- The `waterWords` list of `part_001`. -/
def waterWords : List String :=
  ["ocean", "sea", "bay", "strait", "channel", "water", "river", "lake",
   "reservoir", "reef", "coastline", "beach"]

/-- The response-classification logic of `reverseCheckNominatim` in
`src/unnamed/part_001`, given an HTTP-successful response body. -/
def reverseCheckNominatim (resp : NomResp) : CheckN :=
  let type := lowerStr resp.type
  let category := lowerStr resp.category
  let display := resp.display_name.trim
  let addr := resp.address
  let looksWater := waterWords.any (fun w => strIncludes type w)
    || waterWords.any (fun w => strIncludes category w)
    || (category == "natural" && (type == "water" || type == "coastline"))
  let hasRoadish := addr.road || addr.pedestrian || addr.footway || addr.cycleway
  let hasPlaceish := addr.city || addr.town || addr.village || addr.hamlet
    || addr.suburb || addr.neighbourhood
  let hasCountry := addr.country
  let ok := !looksWater && hasCountry
    && (hasRoadish || hasPlaceish || decide (12 < display.length))
  { ok := ok, looksWater := looksWater
    place := if display = "" then "Unknown" else display
    type := type, category := category
    hasRoadish := hasRoadish, hasPlaceish := hasPlaceish, hasCountry := hasCountry }

end V3

/-- Modelled from the spec (§4.3, place-type check), for comparison with the
implementations: reject iff the feature type or category matches one of the
fixed water-related keywords, or the response lacks any country attribution,
or lacks any locality/road/named-place signal strong enough to trust (the
signals and the display-name threshold being those the diagnostics report). -/
def specPlaceTypeRejects (resp : NomResp) : Bool :=
  let type := lowerStr resp.type
  let category := lowerStr resp.category
  let display := resp.display_name.trim
  let waterKeywordHit := V3.waterWords.any (fun w => strIncludes type w)
    || V3.waterWords.any (fun w => strIncludes category w)
  let addr := resp.address
  let localitySignal := (addr.road || addr.pedestrian || addr.footway || addr.cycleway)
    || (addr.city || addr.town || addr.village || addr.hamlet
        || addr.suburb || addr.neighbourhood)
    || decide (12 < display.length)
  waterKeywordHit || !addr.country || !localitySignal

/-! ### Acceptance orchestrators

External calls are oracles indexed by the attempt number: `some r` is a call
that completed with response `r`, `none` is a call that threw (network
failure, non-2xx status).  Each orchestrator also returns the number of point
derivations it performed. -/

namespace App

/-- The result of `rollUntilLikelyLand`, extended with the count of
`rollSpot` derivations performed. -/
structure RollResultA where
  spot : Option Spot
  check : Option CheckA
  derivs : Nat
deriving DecidableEq, Repr

/-- The check object `rollUntilLikelyLand` substitutes when a lookup fails at
attempt `i ≥ 3`. -/
def lookupUnavailable : CheckA :=
  { ok := false, looksWater := false, place := "Lookup unavailable"
    rawType := "", rawCategory := "" }

/-- The `for (let i = 1; i <= maxAttempts; i++)` loop of
`rollUntilLikelyLand` in `src/public/app.js`: `i` is the attempt number,
`fuel` the remaining iterations, `sp`/`ck` the `spot`/`check` variables in
scope, `d` the count of derivations so far. -/
def rollGo (countryCode mode userSeed : String) (oracle : Nat → Option CheckA) :
    Nat → Nat → Option Spot → Option CheckA → Nat → RollResultA
  | _, 0, sp, ck, d => ⟨sp, ck, d⟩
  | i, fuel + 1, _, ck, d =>
    let spot := rollSpot countryCode mode userSeed i
    match oracle i with
    | some chk =>
      if mode != "publicish" then ⟨some spot, some chk, d + 1⟩
      else if chk.ok then ⟨some spot, some chk, d + 1⟩
      else rollGo countryCode mode userSeed oracle (i + 1) fuel (some spot) (some chk) (d + 1)
    | none =>
      if 3 ≤ i then ⟨some spot, some lookupUnavailable, d + 1⟩
      else rollGo countryCode mode userSeed oracle (i + 1) fuel (some spot) ck (d + 1)

/-- `rollUntilLikelyLand` from `src/public/app.js` (the nondeterministic
`crypto.randomUUID()` session seed is the explicit `userSeed` argument). -/
def rollUntilLikelyLand (countryCode mode userSeed : String)
    (oracle : Nat → Option CheckA) (maxAttempts : Nat := 8) : RollResultA :=
  rollGo countryCode mode userSeed oracle 1 maxAttempts none none 0

end App

namespace V3

/-- The result of `strongLandCheck`/`rollUntilGood`'s check (the raw
diagnostic sub-objects `nom`/`roads`/`error` are omitted; `note` is the
extra field written on exhaustion). -/
structure CheckG where
  ok : Bool
  level : String
  place : String
  note : String
deriving DecidableEq, Repr

/-- `strongLandCheck` from `src/unnamed/part_001`.  `nomRes` is the
`reverseCheckNominatim` call (`none` = threw, propagated to the caller);
`overCnt` is the Overpass element count (`none` = threw, caught here and
turned into the `fallback` level). -/
def strongLandCheck (nomRes : Option CheckN) (overCnt : Option Nat)
    (mode : String) : Option CheckG :=
  match nomRes with
  | none => none
  | some nom =>
    if mode != "publicish" then some ⟨true, "lite", nom.place, ""⟩
    else if !nom.ok then some ⟨false, "nominatim", nom.place, ""⟩
    else match overCnt with
      | none => some ⟨nom.ok, "fallback", nom.place, ""⟩
      | some count =>
        if !(decide (0 < count)) then some ⟨false, "overpass", nom.place, ""⟩
        else some ⟨true, "strong", nom.place, ""⟩

/-- The spot object built by `rollUntilGood`: center, tile and check. -/
structure GSpot where
  center : Spot
  tile : Tile
  check : CheckG
deriving DecidableEq, Repr

/-- The check `rollUntilGood` substitutes when `strongLandCheck` throws
(its `error` string field is omitted). -/
def errorCheck (mode : String) : CheckG :=
  ⟨mode != "publicish", "error", "Lookup unavailable", ""⟩

/-- The exhaustion rewrite applied to `best.check` after the loop. -/
def exhaust (b : GSpot) : GSpot :=
  { b with check :=
      { b.check with
        ok := false
        level := "exhausted"
        note := "Could not confidently avoid water/remote picks." } }

/-- The `for (let i = 1; i <= maxAttempts; i++)` loop of `rollUntilGood` in
`src/unnamed/part_001`: `i` is the attempt number, `fuel` the remaining
iterations, `best` the best-so-far spot, `d` the count of derivations.
`cosFn` abstracts `Math.cos` as in `makeTileFromCenter`. -/
def goodGo (countryCode mode userSeed : String) (tileMeters : ℚ) (cosFn : ℚ → ℚ)
    (nomO : Nat → Option CheckN) (overO : Nat → Option Nat) :
    Nat → Nat → Option GSpot → Nat → Option GSpot × Nat
  | _, 0, best, d => (best.map exhaust, d)
  | i, fuel + 1, _, d =>
    let center := rollCenter countryCode mode userSeed i
    let tile := makeTileFromCenter (cosFn center.lat) center.lat center.lon tileMeters
    let check := (strongLandCheck (nomO i) (overO i) mode).getD (errorCheck mode)
    let spot : GSpot := ⟨center, tile, check⟩
    if mode != "publicish" then (some spot, d + 1)
    else if check.ok then (some spot, d + 1)
    else goodGo countryCode mode userSeed tileMeters cosFn nomO overO (i + 1) fuel (some spot) (d + 1)

/-- `rollUntilGood` from `src/unnamed/part_001` (the nondeterministic
`crypto.randomUUID()` session seed is the explicit `userSeed` argument). -/
def rollUntilGood (countryCode mode userSeed : String) (tileMeters : ℚ)
    (cosFn : ℚ → ℚ) (nomO : Nat → Option CheckN) (overO : Nat → Option Nat)
    (maxAttempts : Nat := 30) : Option GSpot × Nat :=
  goodGo countryCode mode userSeed tileMeters cosFn nomO overO 1 maxAttempts none 0

end V3

/-! ### The `deliver` action of `src/netlify/functions/stripe.js`

Stripe and the SMTP transporter are modelled as an explicit world state: the
`certificate_emailed` marker on the payment-intent metadata, and the number
of e-mails actually handed to the transporter.  `deliver` is the handler's
`action === "deliver"` branch on the happy sequential path (the sends
themselves succeeding). -/

namespace StripeFn

/-- The mutable world the deliver action reads and writes. -/
structure DeliverWorld where
  emailedMarker : Bool
  sentEmails : Nat
deriving DecidableEq, Repr

/-- The retrieved checkout session, reduced to the fields the branch reads. -/
structure SessionView where
  session_id : String
  payment_status : String
  email_consent : String
  email : String
  hasPaymentIntent : Bool
deriving DecidableEq, Repr

/-- A `json(status, …)` response, reduced to the fields the claims concern. -/
structure DeliverResp where
  status : Nat
  ok : Bool
  delivered : Bool
  message : String
deriving DecidableEq, Repr

/-- `looksLikeEmail` from `stripe.js`: the regex
`^[^\s@]+@[^\s@]+\.[^\s@]+$` — one `@` splitting a nonempty local part from
a domain that contains an interior dot, no whitespace anywhere. -/
def looksLikeEmail (e : String) : Bool :=
  let cs := e.data
  let before := cs.takeWhile (fun c => c ≠ '@')
  match cs.dropWhile (fun c => c ≠ '@') with
  | [] => false
  | _ :: after =>
    !before.isEmpty && !after.isEmpty
      && !after.contains '@'
      && !cs.any Char.isWhitespace
      && (after.drop 1).dropLast.contains '.'

/-- The `action === "deliver"` branch of the handler in
`src/netlify/functions/stripe.js`. -/
def deliver (s : SessionView) (w : DeliverWorld) : DeliverResp × DeliverWorld :=
  let sid := s.session_id.trim
  if sid = "" || !sid.startsWith "cs_" then
    (⟨400, false, false, "Missing/invalid session_id"⟩, w)
  else if s.payment_status != "paid" then
    (⟨200, false, false, "Payment not confirmed."⟩, w)
  else if lowerStr s.email_consent != "yes" then
    (⟨200, true, false, "Email delivery not opted in."⟩, w)
  else
    let toAddr := s.email.trim
    if toAddr = "" || !looksLikeEmail toAddr then
      (⟨200, false, false, "Missing/invalid email in metadata."⟩, w)
    else if !s.hasPaymentIntent then
      (⟨500, false, false, "Missing payment_intent."⟩, w)
    else if w.emailedMarker then
      (⟨200, true, true, "Already emailed (idempotent)."⟩, w)
    else
      (⟨200, true, true, ""⟩,
       { emailedMarker := true, sentEmails := w.sentEmails + 1 })

end StripeFn

/-! ### Concrete fixtures used by counterexamples and witnesses -/

/-- A reverse-geocoding response for an inland feature with a usable display
name but no country attribution (`addressdetails=0`-style response). -/
def respLandNoCountry : NomResp :=
  { type := "residential", category := "highway"
    display_name := "Some Road, Somewhere"
    address := ⟨false, false, false, false, false, false, false, false, false, false, false⟩ }

/-- A completed, negative (`ok = false`) check result as `app.js`'s
`reverseCheck` can produce it. -/
def negChk : App.CheckA :=
  { ok := false, looksWater := false, place := "Somewhere inland"
    rawType := "residential", rawCategory := "place" }

/-- An oracle whose calls complete (negatively) on attempts 1–2 and throw
from attempt 3 on. -/
def c6oracle : Nat → Option App.CheckA :=
  fun i => if i ≤ 2 then some negChk else none

/-! ## Theorems -/

/-- `Rat.floor` agrees with the floor of the `FloorRing` instance. -/
theorem ratFloor_eq_floor (q : ℚ) : Rat.floor q = ⌊q⌋ :=
  (Rat.floor_def' q).trans Rat.floor_def.symm

/-- `round6` is monotone. -/
theorem round6_mono {q r : ℚ} (h : q ≤ r) : round6 q ≤ round6 r := by
  unfold round6
  rw [ratFloor_eq_floor, ratFloor_eq_floor]
  have hf : (⌊q * 1000000 + 1/2⌋ : ℚ) ≤ (⌊r * 1000000 + 1/2⌋ : ℚ) := by
    exact_mod_cast Int.floor_le_floor (by linarith)
  exact (div_le_div_iff_of_pos_right (by norm_num)).mpr hf

/-- The emitted numerator of `mulberry32` is a 32-bit value. -/
theorem mbNext_fst_lt (t : Nat) : (mbNext t).1 < M32 := by
  have h32 : M32 = 2 ^ 32 := by norm_num [M32]
  have hpos : 0 < M32 := by norm_num [M32]
  have hxor : ∀ a b : Nat, a < M32 → b < M32 → Nat.xor a b < M32 := by
    intro a b ha hb
    rw [h32] at ha hb ⊢
    exact Nat.xor_lt_two_pow ha hb
  have hshift : ∀ x : Nat, x < M32 → Nat.xor x (x >>> 14) < M32 := by
    intro x hx
    refine hxor _ _ hx (lt_of_le_of_lt ?_ hx)
    rw [Nat.shiftRight_eq_div_pow]
    exact Nat.div_le_self _ _
  unfold mbNext imul32
  dsimp only
  apply hshift
  apply hxor
  · exact Nat.mod_lt _ hpos
  · exact Nat.mod_lt _ hpos

/-- The normalised RNG value is nonnegative. -/
theorem rngRat_nonneg (v : Nat) : 0 ≤ rngRat v := by
  unfold rngRat
  positivity

/-- The normalised RNG value of a 32-bit numerator is at most one. -/
theorem rngRat_le_one {v : Nat} (hv : v < M32) : rngRat v ≤ 1 := by
  unfold rngRat
  rw [div_le_one (by norm_num)]
  have : (v : ℚ) ≤ (M32 : ℚ) := by exact_mod_cast le_of_lt hv
  calc (v : ℚ) ≤ (M32 : ℚ) := this
  _ = 4294967296 := by norm_num [M32]

/-- Linear interpolation by a `[0,1)` draw stays inside the interval, even
after 6-decimal rounding, provided the endpoints are 6-decimal-exact. -/
theorem sample_bounds {lo hi : ℚ} (hle : lo ≤ hi) (hlo : round6 lo = lo)
    (hhi : round6 hi = hi) {v : Nat} (hv : v < M32) :
    lo ≤ round6 (lo + rngRat v * (hi - lo)) ∧
    round6 (lo + rngRat v * (hi - lo)) ≤ hi := by
  have h0 := rngRat_nonneg v
  have h1 := rngRat_le_one hv
  have hlow : lo ≤ lo + rngRat v * (hi - lo) := by nlinarith
  have hupp : lo + rngRat v * (hi - lo) ≤ hi := by nlinarith
  constructor
  · calc lo = round6 lo := hlo.symm
    _ ≤ _ := round6_mono hlow
  · calc round6 (lo + rngRat v * (hi - lo)) ≤ round6 hi := round6_mono hupp
    _ = hi := hhi

/-- The latitude produced by `App.rollSpot`, written out. -/
theorem rollSpot_lat_eq (c m us : String) (n : Nat) :
    (App.rollSpot c m us n).lat =
      round6 (((COUNTRY_BOUNDS c).getD nzBounds).latMin +
        rngRat (mbNext (hashStrToSeed (baseStr c m us n) % M32)).1 *
          (((COUNTRY_BOUNDS c).getD nzBounds).latMax -
           ((COUNTRY_BOUNDS c).getD nzBounds).latMin)) := rfl

/-- The longitude produced by `App.rollSpot`, written out. -/
theorem rollSpot_lon_eq (c m us : String) (n : Nat) :
    (App.rollSpot c m us n).lon =
      round6 (((COUNTRY_BOUNDS c).getD nzBounds).lonMin +
        rngRat (mbNext (mbNext (hashStrToSeed (baseStr c m us n) % M32)).2).1 *
          (((COUNTRY_BOUNDS c).getD nzBounds).lonMax -
           ((COUNTRY_BOUNDS c).getD nzBounds).lonMin)) := rfl

/-- `V3.rollCenter` computes the very same fields as `App.rollSpot`. -/
theorem rollCenter_eq_rollSpot (c m us : String) (n : Nat) :
    V3.rollCenter c m us n = App.rollSpot c m us n := rfl

/-- Every country in the table has well-ordered, 6-decimal-exact bounds. -/
theorem bounds_table_facts (code : String) (b : Bounds)
    (h : COUNTRY_BOUNDS code = some b) :
    b.latMin ≤ b.latMax ∧ b.lonMin ≤ b.lonMax ∧
    round6 b.latMin = b.latMin ∧ round6 b.latMax = b.latMax ∧
    round6 b.lonMin = b.lonMin ∧ round6 b.lonMax = b.lonMax := by
  unfold COUNTRY_BOUNDS at h
  split_ifs at h <;> first
  | exact Option.noConfusion h
  | · injection h with h
      subst h
      decide!

/-- C1.  The point generator is deterministic: two calls to
`rollSpot`/`rollCenter` with identical country code, mode, user seed and
attempt number return identical latitude, longitude and seed-label values
(the embedding is a pure function of exactly these four arguments, with no
other state). -/
theorem C1_generator_deterministic (c₁ c₂ m₁ m₂ s₁ s₂ : String) (n₁ n₂ : Nat)
    (hc : c₁ = c₂) (hm : m₁ = m₂) (hs : s₁ = s₂) (hn : n₁ = n₂) :
    (App.rollSpot c₁ m₁ s₁ n₁).lat = (App.rollSpot c₂ m₂ s₂ n₂).lat ∧
    (App.rollSpot c₁ m₁ s₁ n₁).lon = (App.rollSpot c₂ m₂ s₂ n₂).lon ∧
    (App.rollSpot c₁ m₁ s₁ n₁).seed = (App.rollSpot c₂ m₂ s₂ n₂).seed ∧
    (V3.rollCenter c₁ m₁ s₁ n₁).lat = (V3.rollCenter c₂ m₂ s₂ n₂).lat ∧
    (V3.rollCenter c₁ m₁ s₁ n₁).lon = (V3.rollCenter c₂ m₂ s₂ n₂).lon ∧
    (V3.rollCenter c₁ m₁ s₁ n₁).seed = (V3.rollCenter c₂ m₂ s₂ n₂).seed := by
  subst hc hm hs hn
  exact ⟨rfl, rfl, rfl, rfl, rfl, rfl⟩

/-- Witness for C1 at a concrete input. -/
theorem C1_generator_deterministic_witness :
    ("NZ" : String) = "NZ" ∧
    ((App.rollSpot "NZ" "publicish" "abc" 1).lat =
        (App.rollSpot "NZ" "publicish" "abc" 1).lat ∧
     (App.rollSpot "NZ" "publicish" "abc" 1).lon =
        (App.rollSpot "NZ" "publicish" "abc" 1).lon ∧
     (App.rollSpot "NZ" "publicish" "abc" 1).seed =
        (App.rollSpot "NZ" "publicish" "abc" 1).seed ∧
     (V3.rollCenter "NZ" "publicish" "abc" 1).lat =
        (V3.rollCenter "NZ" "publicish" "abc" 1).lat ∧
     (V3.rollCenter "NZ" "publicish" "abc" 1).lon =
        (V3.rollCenter "NZ" "publicish" "abc" 1).lon ∧
     (V3.rollCenter "NZ" "publicish" "abc" 1).seed =
        (V3.rollCenter "NZ" "publicish" "abc" 1).seed) :=
  ⟨rfl, C1_generator_deterministic "NZ" "NZ" "publicish" "publicish" "abc" "abc" 1 1
      rfl rfl rfl rfl⟩

/-- C2.  Bounds containment: for every country code present in the bounds
table, every mode, user seed and attempt number, the point returned by
`rollSpot`/`rollCenter` lies inside that country's rectangle, rounding to six
decimals included. -/
theorem C2_bounds_containment (code : String) (b : Bounds)
    (h : COUNTRY_BOUNDS code = some b) (mode userSeed : String) (n : Nat) :
    (b.latMin ≤ (App.rollSpot code mode userSeed n).lat ∧
     (App.rollSpot code mode userSeed n).lat ≤ b.latMax ∧
     b.lonMin ≤ (App.rollSpot code mode userSeed n).lon ∧
     (App.rollSpot code mode userSeed n).lon ≤ b.lonMax) ∧
    (b.latMin ≤ (V3.rollCenter code mode userSeed n).lat ∧
     (V3.rollCenter code mode userSeed n).lat ≤ b.latMax ∧
     b.lonMin ≤ (V3.rollCenter code mode userSeed n).lon ∧
     (V3.rollCenter code mode userSeed n).lon ≤ b.lonMax) := by
  obtain ⟨hlat, hlon, hf1, hf2, hf3, hf4⟩ := bounds_table_facts code b h
  have hgd : (COUNTRY_BOUNDS code).getD nzBounds = b := by rw [h]; rfl
  have hlatc := sample_bounds hlat hf1 hf2
    (mbNext_fst_lt (hashStrToSeed (baseStr code mode userSeed n) % M32))
  have hlonc := sample_bounds hlon hf3 hf4
    (mbNext_fst_lt (mbNext (hashStrToSeed (baseStr code mode userSeed n) % M32)).2)
  rw [rollCenter_eq_rollSpot, rollSpot_lat_eq, rollSpot_lon_eq, hgd]
  exact ⟨⟨hlatc.1, hlatc.2, hlonc.1, hlonc.2⟩, hlatc.1, hlatc.2, hlonc.1, hlonc.2⟩

/-- Witness for C2 at a concrete input. -/
theorem C2_bounds_containment_witness :
    COUNTRY_BOUNDS "NZ" = some nzBounds ∧
    ((nzBounds.latMin ≤ (App.rollSpot "NZ" "publicish" "abc" 1).lat ∧
      (App.rollSpot "NZ" "publicish" "abc" 1).lat ≤ nzBounds.latMax ∧
      nzBounds.lonMin ≤ (App.rollSpot "NZ" "publicish" "abc" 1).lon ∧
      (App.rollSpot "NZ" "publicish" "abc" 1).lon ≤ nzBounds.lonMax) ∧
     (nzBounds.latMin ≤ (V3.rollCenter "NZ" "publicish" "abc" 1).lat ∧
      (V3.rollCenter "NZ" "publicish" "abc" 1).lat ≤ nzBounds.latMax ∧
      nzBounds.lonMin ≤ (V3.rollCenter "NZ" "publicish" "abc" 1).lon ∧
      (V3.rollCenter "NZ" "publicish" "abc" 1).lon ≤ nzBounds.lonMax)) :=
  ⟨by decide!, C2_bounds_containment "NZ" nzBounds (by decide!) "publicish" "abc" 1⟩

/-- When the mode is not `publicish`, the `part_000` sampling loop exits on
its first iteration, with the first two draws. -/
theorem rollLoop_nonstrict (b : Bounds) (m : String) (t fuel : Nat)
    (hm : m ≠ "publicish") :
    V1.rollLoop b m t (fuel + 1) =
      (b.latMin + rngRat (mbNext t).1 * (b.latMax - b.latMin),
       b.lonMin + rngRat (mbNext (mbNext t).2).1 * (b.lonMax - b.lonMin)) := by
  simp only [V1.rollLoop]
  rw [if_pos hm]

/-- The latitude produced by `V1.rollSpot`, written out. -/
theorem v1_rollSpot_lat_eq (c m us : String) (n : Nat) :
    (V1.rollSpot c m us n).lat =
      round6 ((V1.rollLoop ((COUNTRY_BOUNDS c).getD nzBounds) m
        (hashStrToSeed (baseStr c m us n) % M32)
        (if m = "publicish" then 120 else 40)).1) := rfl

/-- The longitude produced by `V1.rollSpot`, written out. -/
theorem v1_rollSpot_lon_eq (c m us : String) (n : Nat) :
    (V1.rollSpot c m us n).lon =
      round6 ((V1.rollLoop ((COUNTRY_BOUNDS c).getD nzBounds) m
        (hashStrToSeed (baseStr c m us n) % M32)
        (if m = "publicish" then 120 else 40)).2) := rfl

/-- C3 counterexample.  At countryCode `"NZ"`, mode `"publicish"`, userSeed
`"abc"`, attempt 1, the `part_000` generator (cited by the claim) does not
return the point obtained by drawing exactly two values and mapping them into
the country rectangle: its land-bias rejection loop consumes further draws,
so the claim's description of the derivation fails on this input. -/
theorem C3_counterexample :
    (V1.rollSpot "NZ" "publicish" "abc" 1).lat ≠
      (derivePoint "NZ" "publicish" "abc" 1).1 ∧
    (V1.rollSpot "NZ" "publicish" "abc" 1).lon ≠
      (derivePoint "NZ" "publicish" "abc" 1).2 := by
  constructor <;> decide!

/-- C3 (amended).  The derivation pipeline — concatenate
`countryCode|mode|userSeed|attemptNumber`, 32-bit FNV-1a fold, mulberry32
seeded with the result, two draws mapped linearly into the country rectangle
and rounded to 6 decimals (`derivePoint`, written from the spec text) — is
exactly what `app.js`'s `rollSpot` and `part_001`'s `rollCenter` compute for
every input, and what `part_000`'s `rollSpot` computes whenever the mode is
not `publicish`; in `publicish` mode `part_000` may draw additional values in
its land-bias rejection loop. -/
theorem C3_amended_derivation (c m us : String) (n : Nat) :
    ((App.rollSpot c m us n).lat = (derivePoint c m us n).1 ∧
     (App.rollSpot c m us n).lon = (derivePoint c m us n).2) ∧
    ((V3.rollCenter c m us n).lat = (derivePoint c m us n).1 ∧
     (V3.rollCenter c m us n).lon = (derivePoint c m us n).2) ∧
    (m ≠ "publicish" →
      (V1.rollSpot c m us n).lat = (derivePoint c m us n).1 ∧
      (V1.rollSpot c m us n).lon = (derivePoint c m us n).2) := by
  refine ⟨⟨rfl, rfl⟩, ⟨rfl, rfl⟩, fun hm => ?_⟩
  have key : V1.rollLoop ((COUNTRY_BOUNDS c).getD nzBounds) m
      (hashStrToSeed (baseStr c m us n) % M32)
      (if m = "publicish" then 120 else 40) =
      (((COUNTRY_BOUNDS c).getD nzBounds).latMin +
         rngRat (mbNext (hashStrToSeed (baseStr c m us n) % M32)).1 *
           (((COUNTRY_BOUNDS c).getD nzBounds).latMax -
            ((COUNTRY_BOUNDS c).getD nzBounds).latMin),
       ((COUNTRY_BOUNDS c).getD nzBounds).lonMin +
         rngRat (mbNext (mbNext (hashStrToSeed (baseStr c m us n) % M32)).2).1 *
           (((COUNTRY_BOUNDS c).getD nzBounds).lonMax -
            ((COUNTRY_BOUNDS c).getD nzBounds).lonMin)) := by
    rw [if_neg hm]
    exact rollLoop_nonstrict _ _ _ 39 hm
  constructor
  · rw [v1_rollSpot_lat_eq, key]
    exact rfl
  · rw [v1_rollSpot_lon_eq, key]
    exact rfl

/-- Witness for the amended C3 at a concrete non-strict input. -/
theorem C3_amended_derivation_witness :
    ("anywhere" : String) ≠ "publicish" ∧
    ((V1.rollSpot "NZ" "anywhere" "s" 1).lat = (derivePoint "NZ" "anywhere" "s" 1).1 ∧
     (V1.rollSpot "NZ" "anywhere" "s" 1).lon = (derivePoint "NZ" "anywhere" "s" 1).2) :=
  ⟨by decide, (C3_amended_derivation "NZ" "anywhere" "s" 1).2.2 (by decide)⟩

/-- C10.  An unknown country code is preserved, not replaced: sampling falls
back to New Zealand's rectangle and display name, but the returned
`countryCode` is the caller's code and the hashed base string / seed label
are built from the caller's code, so distinct unknown codes generally give
distinct points and labels (witnessed concretely by `"XX"` vs `"ZQ"`). -/
theorem C10_unknown_code_preserved (c m us : String) (n : Nat)
    (h : COUNTRY_BOUNDS c = none) :
    (App.rollSpot c m us n).country = "New Zealand" ∧
    (App.rollSpot c m us n).countryCode = c ∧
    (App.rollSpot c m us n).seed = seedLabel c m (hashStrToSeed (baseStr c m us n)) ∧
    (App.rollSpot c m us n).lat =
      round6 (nzBounds.latMin + rngRat (mbNext (hashStrToSeed (baseStr c m us n) % M32)).1 *
        (nzBounds.latMax - nzBounds.latMin)) ∧
    (V3.rollCenter c m us n).country = "New Zealand" ∧
    (V3.rollCenter c m us n).countryCode = c ∧
    (V1.rollSpot c m us n).country = "New Zealand" ∧
    (V1.rollSpot c m us n).countryCode = c ∧
    (App.rollSpot "XX" "anywhere" "s" 1).lat ≠ (App.rollSpot "ZQ" "anywhere" "s" 1).lat ∧
    (App.rollSpot "XX" "anywhere" "s" 1).seed ≠ (App.rollSpot "ZQ" "anywhere" "s" 1).seed := by
  have hgd : (COUNTRY_BOUNDS c).getD nzBounds = nzBounds := by rw [h]; rfl
  refine ⟨?_, rfl, rfl, ?_, ?_, rfl, ?_, rfl, by decide!, by decide!⟩
  · show ((COUNTRY_BOUNDS c).getD nzBounds).name = "New Zealand"
    rw [hgd]
    exact rfl
  · rw [rollSpot_lat_eq, hgd]
  · show ((COUNTRY_BOUNDS c).getD nzBounds).name = "New Zealand"
    rw [hgd]
    exact rfl
  · show ((COUNTRY_BOUNDS c).getD nzBounds).name = "New Zealand"
    rw [hgd]
    exact rfl

/-- Witness for C10 at the concrete unknown code `"XX"`. -/
theorem C10_unknown_code_preserved_witness :
    COUNTRY_BOUNDS "XX" = none ∧
    ((App.rollSpot "XX" "anywhere" "s" 1).country = "New Zealand" ∧
     (App.rollSpot "XX" "anywhere" "s" 1).countryCode = "XX" ∧
     (App.rollSpot "XX" "anywhere" "s" 1).seed =
       seedLabel "XX" "anywhere" (hashStrToSeed (baseStr "XX" "anywhere" "s" 1)) ∧
     (App.rollSpot "XX" "anywhere" "s" 1).lat =
       round6 (nzBounds.latMin +
         rngRat (mbNext (hashStrToSeed (baseStr "XX" "anywhere" "s" 1) % M32)).1 *
           (nzBounds.latMax - nzBounds.latMin)) ∧
     (V3.rollCenter "XX" "anywhere" "s" 1).country = "New Zealand" ∧
     (V3.rollCenter "XX" "anywhere" "s" 1).countryCode = "XX" ∧
     (V1.rollSpot "XX" "anywhere" "s" 1).country = "New Zealand" ∧
     (V1.rollSpot "XX" "anywhere" "s" 1).countryCode = "XX" ∧
     (App.rollSpot "XX" "anywhere" "s" 1).lat ≠ (App.rollSpot "ZQ" "anywhere" "s" 1).lat ∧
     (App.rollSpot "XX" "anywhere" "s" 1).seed ≠ (App.rollSpot "ZQ" "anywhere" "s" 1).seed) :=
  ⟨by decide, C10_unknown_code_preserved "XX" "anywhere" "s" 1 (by decide)⟩

/-- C7 counterexample.  For the 0.15-meter tile (a size the UI's 0.1–100 m
clamp admits) centred at (0,0) with exact cosine 1, the reported area is the
2-decimal rounding `0.02`, not `s² = 0.0225`: the claim's "area equal to s
squared" fails for this size. -/
theorem C7_counterexample :
    (V3.makeTileFromCenter 1 0 0 (3/20)).areaM2 ≠ (3/20 : ℚ) * (3/20) := by
  decide!

/-- C7 (amended).  For every centre, cosine value and size `s > 0`, the tile
has four corners placed symmetrically around the centre (equal latitude
offsets north/south, equal longitude offsets east/west, corners assembled
from those bounds), the cosine factor in the longitude denominator is
floor-clamped to at least `0.12` (so the denominator is positive), and the
reported area is `s²` rounded to 2 decimal places — in particular exactly
`1.0` for a 1-meter tile and `1,000,000` for a 1000-meter tile. -/
theorem C7_amended_tile_geometry (cosLat lat lon s : ℚ) (_hs : 0 < s) :
    ((V3.makeTileFromCenter cosLat lat lon s).north - lat =
        lat - (V3.makeTileFromCenter cosLat lat lon s).south ∧
     (V3.makeTileFromCenter cosLat lat lon s).east - lon =
        lon - (V3.makeTileFromCenter cosLat lat lon s).west ∧
     (V3.makeTileFromCenter cosLat lat lon s).cornerNW =
        ((V3.makeTileFromCenter cosLat lat lon s).north,
         (V3.makeTileFromCenter cosLat lat lon s).west) ∧
     (V3.makeTileFromCenter cosLat lat lon s).cornerNE =
        ((V3.makeTileFromCenter cosLat lat lon s).north,
         (V3.makeTileFromCenter cosLat lat lon s).east) ∧
     (V3.makeTileFromCenter cosLat lat lon s).cornerSW =
        ((V3.makeTileFromCenter cosLat lat lon s).south,
         (V3.makeTileFromCenter cosLat lat lon s).west) ∧
     (V3.makeTileFromCenter cosLat lat lon s).cornerSE =
        ((V3.makeTileFromCenter cosLat lat lon s).south,
         (V3.makeTileFromCenter cosLat lat lon s).east)) ∧
    ((3/25 : ℚ) ≤ maxQ cosLat 0.12 ∧
     0 < 111320 * maxQ cosLat 0.12) ∧
    ((V3.makeTileFromCenter cosLat lat lon s).areaM2 = round2 (s * s) ∧
     (V3.makeTileFromCenter 1 0 0 1).areaM2 = 1 ∧
     (V3.makeTileFromCenter 1 0 0 1000).areaM2 = 1000000) := by
  have hclamp : (3/25 : ℚ) ≤ maxQ cosLat 0.12 := by
    unfold maxQ
    split_ifs with hsplit
    · have h12 : (0.12 : ℚ) = 3/25 := by norm_num
      rw [h12]
    · have hlt := lt_of_not_le hsplit
      have h12 : (0.12 : ℚ) = 3/25 := by norm_num
      rw [h12] at hlt
      exact le_of_lt hlt
  refine ⟨?_, ⟨hclamp, by nlinarith⟩, rfl, by decide!, by decide!⟩
  refine ⟨?_, ?_, rfl, rfl, rfl, rfl⟩
  · show (lat + s / 2 / 111320) - lat = lat - (lat - s / 2 / 111320)
    ring
  · show (lon + s / 2 / (111320 * maxQ cosLat 0.12)) - lon =
        lon - (lon - s / 2 / (111320 * maxQ cosLat 0.12))
    ring

/-- Witness for the amended C7 at the concrete 1-meter tile at (0,0). -/
theorem C7_amended_tile_geometry_witness :
    (0 : ℚ) < 1 ∧
    (((V3.makeTileFromCenter 1 0 0 1).north - 0 =
        0 - (V3.makeTileFromCenter 1 0 0 1).south ∧
      (V3.makeTileFromCenter 1 0 0 1).east - 0 =
        0 - (V3.makeTileFromCenter 1 0 0 1).west ∧
      (V3.makeTileFromCenter 1 0 0 1).cornerNW =
        ((V3.makeTileFromCenter 1 0 0 1).north,
         (V3.makeTileFromCenter 1 0 0 1).west) ∧
      (V3.makeTileFromCenter 1 0 0 1).cornerNE =
        ((V3.makeTileFromCenter 1 0 0 1).north,
         (V3.makeTileFromCenter 1 0 0 1).east) ∧
      (V3.makeTileFromCenter 1 0 0 1).cornerSW =
        ((V3.makeTileFromCenter 1 0 0 1).south,
         (V3.makeTileFromCenter 1 0 0 1).west) ∧
      (V3.makeTileFromCenter 1 0 0 1).cornerSE =
        ((V3.makeTileFromCenter 1 0 0 1).south,
         (V3.makeTileFromCenter 1 0 0 1).east)) ∧
     ((3/25 : ℚ) ≤ maxQ 1 0.12 ∧
      0 < 111320 * maxQ 1 0.12) ∧
     ((V3.makeTileFromCenter 1 0 0 1).areaM2 = round2 (1 * 1) ∧
      (V3.makeTileFromCenter 1 0 0 1).areaM2 = 1 ∧
      (V3.makeTileFromCenter 1 0 0 1000).areaM2 = 1000000)) :=
  ⟨by norm_num, C7_amended_tile_geometry 1 0 0 1 (by norm_num)⟩

/-- Boolean skeleton of the `part_001` place-type check: when the extra
`natural`-category clause is subsumed by the keyword scan, rejection is
exactly keyword hit, missing country, or missing locality signal. -/
theorem placeCheck_bool_aux : ∀ w1 w2 n c s : Bool, (n = true → w1 = true) →
    ((!(w1 || w2 || n) && c && s) = false ↔ (w1 || w2 || !c || !s) = true) := by
  decide

/-- Boolean skeleton of the `app.js` check: rejection is exactly a water hit
or a short display name. -/
theorem appCheck_bool_aux : ∀ lw d : Bool,
    ((!lw && d) = false ↔ (lw = true ∨ d = false)) := by
  decide

/-- The `category === "natural" && (type === "water" || "coastline")` clause
is subsumed by the water-keyword scan over the type. -/
theorem natural_clause_subsumed (ty cat : String) :
    (cat == "natural" && (ty == "water" || ty == "coastline")) = true →
    V3.waterWords.any (fun w => strIncludes ty w) = true := by
  intro h
  rw [Bool.and_eq_true] at h
  rcases h with ⟨-, hty⟩
  rw [Bool.or_eq_true] at hty
  rcases hty with hty | hty
  · rw [beq_iff_eq] at hty
    subst hty
    decide
  · rw [beq_iff_eq] at hty
    subst hty
    decide

/-- C8 counterexample.  A response for an inland road feature with a usable
display name but no country attribution: the spec's rejection conditions say
reject (no country attribution), yet `app.js`'s `reverseCheck` — cited by the
claim — accepts it, because it checks only its 10-keyword water heuristic and
a 6-character display-name threshold.  So the claimed "rejects exactly when"
equivalence fails at this input. -/
theorem C8_counterexample :
    (App.reverseCheck respLandNoCountry).ok = true ∧
    specPlaceTypeRejects respLandNoCountry = true := by
  constructor <;> decide!

/-- C8 (amended).  `part_001`'s `reverseCheckNominatim` rejects exactly under
the spec's conditions — a water keyword occurring in the feature type or
category, a missing country attribution, or no road/locality signal and no
display name longer than 12 characters — and reports the display name (or
`"Unknown"`) with the raw signals.  `app.js`'s `reverseCheck`, however,
rejects exactly when its own 10-keyword water heuristic fires or the trimmed
display name is shorter than 6 characters; it inspects no country or
locality signals. -/
theorem C8_amended_place_type_check (resp : NomResp) :
    ((V3.reverseCheckNominatim resp).ok = false ↔
      specPlaceTypeRejects resp = true) ∧
    ((V3.reverseCheckNominatim resp).place =
      (if resp.display_name.trim = "" then "Unknown" else resp.display_name.trim) ∧
     (V3.reverseCheckNominatim resp).hasCountry = resp.address.country ∧
     (V3.reverseCheckNominatim resp).hasRoadish =
       (resp.address.road || resp.address.pedestrian || resp.address.footway
        || resp.address.cycleway)) ∧
    ((App.reverseCheck resp).ok = false ↔
      ((App.reverseCheck resp).looksWater = true ∨
       resp.display_name.trim.length < 6)) := by
  refine ⟨?_, ⟨rfl, rfl, rfl⟩, ?_⟩
  · unfold V3.reverseCheckNominatim specPlaceTypeRejects
    dsimp only
    exact placeCheck_bool_aux _ _ _ _ _
      (natural_clause_subsumed (lowerStr resp.type) (lowerStr resp.category))
  · unfold App.reverseCheck
    dsimp only
    rw [appCheck_bool_aux]
    have hd : (decide (6 ≤ resp.display_name.trim.length) = false) ↔
        resp.display_name.trim.length < 6 := by
      rw [decide_eq_false_iff_not]
      exact Nat.not_le
    rw [hd]

/-- C9.  Idempotent e-mail delivery: for a retrievable paid session with
consent, a valid address and a payment intent, (i) when the payment-intent
metadata already carries the `certificate_emailed` marker, `deliver` answers
success without handing any message to the transporter; (ii) when the marker
is absent, the successful send hands exactly one message to the transporter
and writes the marker; so (iii) running the delivery path twice sends
exactly one e-mail from a fresh (unmarked) state, and none beyond it. -/
theorem C9_idempotent_delivery (s : StripeFn.SessionView) (w : StripeFn.DeliverWorld)
    (hsid : s.session_id.trim.startsWith "cs_" = true)
    (hpaid : s.payment_status = "paid")
    (hconsent : lowerStr s.email_consent = "yes")
    (hemail : StripeFn.looksLikeEmail s.email.trim = true)
    (hpi : s.hasPaymentIntent = true) :
    (w.emailedMarker = true →
      StripeFn.deliver s w =
        (⟨200, true, true, "Already emailed (idempotent)."⟩, w)) ∧
    (w.emailedMarker = false →
      StripeFn.deliver s w =
        (⟨200, true, true, ""⟩, ⟨true, w.sentEmails + 1⟩)) ∧
    ((StripeFn.deliver s (StripeFn.deliver s w).2).2).sentEmails =
      (if w.emailedMarker then w.sentEmails else w.sentEmails + 1) := by
  have hsid' : s.session_id.trim ≠ "" := by
    intro he
    rw [he] at hsid
    exact absurd hsid (by decide)
  have hto : s.email.trim ≠ "" := by
    intro he
    rw [he] at hemail
    exact absurd hemail (by decide)
  have hstep : ∀ w' : StripeFn.DeliverWorld,
      StripeFn.deliver s w' =
        (if w'.emailedMarker then
          (⟨200, true, true, "Already emailed (idempotent)."⟩, w')
         else
          (⟨200, true, true, ""⟩, ⟨true, w'.sentEmails + 1⟩)) := by
    intro w'
    have g1 : (decide (s.session_id.trim = "")
        || !s.session_id.trim.startsWith "cs_") = false := by
      rw [hsid]
      simp [hsid']
    have g2 : (s.payment_status != "paid") = false := by
      simp [hpaid]
    have g3 : (lowerStr s.email_consent != "yes") = false := by
      simp [hconsent]
    have g4 : (decide (s.email.trim = "")
        || !StripeFn.looksLikeEmail s.email.trim) = false := by
      rw [hemail]
      simp [hto]
    have g5 : (!s.hasPaymentIntent) = false := by
      rw [hpi]
      rfl
    unfold StripeFn.deliver
    simp only [g1, g2, g3, g4, g5, Bool.false_eq_true, if_false]
  refine ⟨fun hm => ?_, fun hm => ?_, ?_⟩
  · rw [hstep, if_pos hm]
  · rw [hstep, if_neg (by rw [hm]; exact Bool.false_ne_true)]
  · rcases hw : w.emailedMarker with _ | _
    · rw [hstep w, if_neg (by rw [hw]; exact Bool.false_ne_true)]
      rw [hstep ⟨true, w.sentEmails + 1⟩, if_pos rfl]
      simp [hw]
    · rw [hstep w, if_pos hw, hstep w, if_pos hw]
      simp [hw]

/-- Witness for C9 at a concrete paid, consenting session starting from a
fresh (unmarked) world. -/
theorem C9_idempotent_delivery_witness :
    (("cs_test" : String).trim.startsWith "cs_" = true ∧
     ("paid" : String) = "paid" ∧
     lowerStr "yes" = "yes" ∧
     StripeFn.looksLikeEmail ("a@b.co" : String).trim = true ∧
     true = true) ∧
    (((⟨false, 0⟩ : StripeFn.DeliverWorld).emailedMarker = true →
        StripeFn.deliver ⟨"cs_test", "paid", "yes", "a@b.co", true⟩ ⟨false, 0⟩ =
          (⟨200, true, true, "Already emailed (idempotent)."⟩, ⟨false, 0⟩)) ∧
     ((⟨false, 0⟩ : StripeFn.DeliverWorld).emailedMarker = false →
        StripeFn.deliver ⟨"cs_test", "paid", "yes", "a@b.co", true⟩ ⟨false, 0⟩ =
          (⟨200, true, true, ""⟩,
           ⟨true, (⟨false, 0⟩ : StripeFn.DeliverWorld).sentEmails + 1⟩)) ∧
     ((StripeFn.deliver ⟨"cs_test", "paid", "yes", "a@b.co", true⟩
         (StripeFn.deliver ⟨"cs_test", "paid", "yes", "a@b.co", true⟩
           ⟨false, 0⟩).2).2).sentEmails =
       (if (⟨false, 0⟩ : StripeFn.DeliverWorld).emailedMarker then
          (⟨false, 0⟩ : StripeFn.DeliverWorld).sentEmails
        else (⟨false, 0⟩ : StripeFn.DeliverWorld).sentEmails + 1)) :=
  ⟨⟨by decide!, rfl, by decide!, by decide!, rfl⟩,
   C9_idempotent_delivery ⟨"cs_test", "paid", "yes", "a@b.co", true⟩ ⟨false, 0⟩
     (by decide!) rfl (by decide!) (by decide!) rfl⟩

/-- A string different from `"publicish"` is `!=` to it. -/
theorem bne_publicish {m : String} (hm : m ≠ "publicish") :
    (m != "publicish") = true := by
  simp [bne_iff_ne]
  exact hm

/-- `rollUntilLikelyLand` never performs more derivations than it has fuel. -/
theorem rollGo_derivs_le (c m us : String) (oracle : Nat → Option App.CheckA) :
    ∀ fuel i sp ck d, (App.rollGo c m us oracle i fuel sp ck d).derivs ≤ d + fuel := by
  intro fuel
  induction fuel with
  | zero => intro i sp ck d; simp [App.rollGo]
  | succ fuel ih =>
    intro i sp ck d
    simp only [App.rollGo]
    rcases oracle i with _ | chk
    · dsimp only
      split_ifs
      · show d + 1 ≤ d + (fuel + 1)
        omega
      · exact le_of_le_of_eq
          (ih (i + 1) (some (App.rollSpot c m us i)) ck (d + 1)) (by omega)
    · dsimp only
      split_ifs
      · show d + 1 ≤ d + (fuel + 1)
        omega
      · show d + 1 ≤ d + (fuel + 1)
        omega
      · exact le_of_le_of_eq
          (ih (i + 1) (some (App.rollSpot c m us i)) (some chk) (d + 1)) (by omega)

/-- `rollUntilLikelyLand` always hands back a spot once it has run at least
one iteration (or started with one). -/
theorem rollGo_spot_isSome (c m us : String) (oracle : Nat → Option App.CheckA) :
    ∀ fuel i sp ck d, (sp.isSome = true ∨ 1 ≤ fuel) →
      (App.rollGo c m us oracle i fuel sp ck d).spot.isSome = true := by
  intro fuel
  induction fuel with
  | zero =>
    intro i sp ck d h
    rcases h with h | h
    · simpa [App.rollGo] using h
    · omega
  | succ fuel ih =>
    intro i sp ck d _
    simp only [App.rollGo]
    rcases oracle i with _ | chk
    · dsimp only
      split_ifs
      · rfl
      · exact ih (i + 1) (some (App.rollSpot c m us i)) ck (d + 1) (Or.inl rfl)
    · dsimp only
      split_ifs
      · rfl
      · rfl
      · exact ih (i + 1) (some (App.rollSpot c m us i)) (some chk) (d + 1) (Or.inl rfl)

/-- `rollUntilGood` never performs more derivations than it has fuel. -/
theorem goodGo_derivs_le (c m us : String) (tileMeters : ℚ) (cosFn : ℚ → ℚ)
    (nomO : Nat → Option V3.CheckN) (overO : Nat → Option Nat) :
    ∀ fuel i best d,
      (V3.goodGo c m us tileMeters cosFn nomO overO i fuel best d).2 ≤ d + fuel := by
  intro fuel
  induction fuel with
  | zero => intro i best d; simp [V3.goodGo]
  | succ fuel ih =>
    intro i best d
    simp only [V3.goodGo]
    split_ifs
    · show d + 1 ≤ d + (fuel + 1)
      omega
    · show d + 1 ≤ d + (fuel + 1)
      omega
    · exact le_of_le_of_eq (ih (i + 1) _ (d + 1)) (by omega)

/-- `rollUntilGood` always hands back a spot once it has run at least one
iteration (or started with one). -/
theorem goodGo_isSome (c m us : String) (tileMeters : ℚ) (cosFn : ℚ → ℚ)
    (nomO : Nat → Option V3.CheckN) (overO : Nat → Option Nat) :
    ∀ fuel i best d, (best.isSome = true ∨ 1 ≤ fuel) →
      ((V3.goodGo c m us tileMeters cosFn nomO overO i fuel best d).1).isSome = true := by
  intro fuel
  induction fuel with
  | zero =>
    intro i best d h
    rcases h with h | h
    · simpa [V3.goodGo] using h
    · omega
  | succ fuel ih =>
    intro i best d _
    simp only [V3.goodGo]
    split_ifs
    · rfl
    · rfl
    · exact ih (i + 1) (some _) (d + 1) (Or.inl rfl)

/-- When every strict-mode check of `rollUntilGood` comes back not ok, the
loop exhausts its budget and the whole result is the last candidate remarked
`exhausted`/not-accepted. -/
theorem goodGo_exhausts (c us : String) (tileMeters : ℚ) (cosFn : ℚ → ℚ)
    (nomO : Nat → Option V3.CheckN) (overO : Nat → Option Nat)
    (hall : ∀ j, ((V3.strongLandCheck (nomO j) (overO j) "publicish").getD
      (V3.errorCheck "publicish")).ok = false) :
    ∀ fuel i best d, (best.isSome = true ∨ 1 ≤ fuel) →
      ∃ g, (V3.goodGo c "publicish" us tileMeters cosFn nomO overO i fuel best d).1
          = some g ∧
        g.check.level = "exhausted" ∧ g.check.ok = false := by
  intro fuel
  induction fuel with
  | zero =>
    intro i best d h
    rcases h with h | h
    · rcases best with _ | b
      · exact absurd h (by simp)
      · exact ⟨V3.exhaust b, rfl, rfl, rfl⟩
    · omega
  | succ fuel ih =>
    intro i best d _
    simp only [V3.goodGo]
    rw [if_neg (by simp), if_neg (by rw [hall i]; exact Bool.false_ne_true)]
    exact ih (i + 1) (some _) (d + 1) (Or.inl rfl)

/-- In a non-strict mode, whatever the oracles do, the check recorded by
`rollUntilGood` for an attempt is accepted (`lite` on success, and the
caught-error check also carries `ok = true` for such modes). -/
theorem strongLandCheck_nonstrict_ok (m : String) (hm : m ≠ "publicish")
    (nomRes : Option V3.CheckN) (overCnt : Option Nat) :
    ((V3.strongLandCheck nomRes overCnt m).getD (V3.errorCheck m)).ok = true := by
  have hbne := bne_publicish hm
  rcases nomRes with _ | nom
  · simp [V3.strongLandCheck, V3.errorCheck, hbne]
  · simp [V3.strongLandCheck, hbne]

/-- C4 counterexample.  In mode `"anywhere"` (non-strict) with a
reverse-geocoding oracle that always throws and the UI's own non-strict
budget of 3 attempts, `app.js`'s `rollUntilLikelyLand` — cited by the claim —
performs three point derivations, not exactly one, consults the external
check on each of them, and hands back a result whose check is the
non-accepted `"Lookup unavailable"` placeholder rather than one marked
accepted. -/
theorem C4_counterexample :
    (App.rollUntilLikelyLand "NZ" "anywhere" "s" (fun _ => none) 3).derivs = 3 ∧
    (App.rollUntilLikelyLand "NZ" "anywhere" "s" (fun _ => none) 3).check =
      some App.lookupUnavailable ∧
    App.lookupUnavailable.ok = false := by
  refine ⟨by decide!, by decide!, rfl⟩

/-- C4 (amended).  For every mode other than `publicish`: `part_001`'s
`rollUntilGood` performs exactly one derivation and its result is always
marked accepted, whatever the external oracles do (though the
reverse-geocoding call is still attempted); `app.js`'s `rollUntilLikelyLand`
also performs exactly one derivation whenever its first reverse-geocoding
call completes, but it returns that check unmodified rather than forcing
acceptance, and when calls throw it can derive up to three points. -/
theorem C4_amended_nonstrict_shortcut
    (c us m : String) (tileMeters : ℚ) (cosFn : ℚ → ℚ)
    (nomO : Nat → Option V3.CheckN) (overO : Nat → Option Nat)
    (oracle : Nat → Option App.CheckA) (chk : App.CheckA) (maxAttempts : Nat)
    (hm : m ≠ "publicish") (hmax : 1 ≤ maxAttempts) (hor : oracle 1 = some chk) :
    ((V3.rollUntilGood c m us tileMeters cosFn nomO overO maxAttempts).2 = 1 ∧
     ∃ g, (V3.rollUntilGood c m us tileMeters cosFn nomO overO maxAttempts).1 = some g ∧
          g.check.ok = true) ∧
    ((App.rollUntilLikelyLand c m us oracle maxAttempts).derivs = 1 ∧
     (App.rollUntilLikelyLand c m us oracle maxAttempts).check = some chk) := by
  obtain ⟨k, rfl⟩ : ∃ k, maxAttempts = k + 1 :=
    ⟨maxAttempts - 1, (Nat.succ_pred_eq_of_pos hmax).symm⟩
  have hbne := bne_publicish hm
  constructor
  · unfold V3.rollUntilGood
    simp only [V3.goodGo]
    rw [if_pos hbne]
    exact ⟨rfl, _, rfl, strongLandCheck_nonstrict_ok m hm (nomO 1) (overO 1)⟩
  · unfold App.rollUntilLikelyLand
    simp only [App.rollGo, hor]
    rw [if_pos hbne]
    exact ⟨rfl, rfl⟩

/-- Witness for the amended C4 at a concrete non-strict input. -/
theorem C4_amended_nonstrict_shortcut_witness :
    (("anywhere" : String) ≠ "publicish" ∧ 1 ≤ 1 ∧
     (fun _ : Nat => some negChk) 1 = some negChk) ∧
    (((V3.rollUntilGood "NZ" "anywhere" "s" 1 (fun _ => 1) (fun _ => none)
        (fun _ => none) 1).2 = 1 ∧
      ∃ g, (V3.rollUntilGood "NZ" "anywhere" "s" 1 (fun _ => 1) (fun _ => none)
        (fun _ => none) 1).1 = some g ∧ g.check.ok = true) ∧
     ((App.rollUntilLikelyLand "NZ" "anywhere" "s" (fun _ => some negChk) 1).derivs = 1 ∧
      (App.rollUntilLikelyLand "NZ" "anywhere" "s" (fun _ => some negChk) 1).check =
        some negChk)) :=
  ⟨⟨by decide, by decide, rfl⟩,
   C4_amended_nonstrict_shortcut "NZ" "s" "anywhere" 1 (fun _ => 1) (fun _ => none)
     (fun _ => none) (fun _ => some negChk) negChk 1 (by decide) (by decide) rfl⟩

/-- C5 counterexample.  In `publicish` mode with a reverse-geocoding oracle
that throws on both attempts and a budget of 2, `app.js`'s
`rollUntilLikelyLand` — cited by the claim — exhausts its budget but returns
a result that carries no check object at all (`check = none`): there is no
`exhausted` confidence level and no `accepted = false` marker on it, so the
claim's description of exhaustion fails for this orchestrator. -/
theorem C5_counterexample :
    (App.rollUntilLikelyLand "NZ" "publicish" "s" (fun _ => none) 2).check = none ∧
    (App.rollUntilLikelyLand "NZ" "publicish" "s" (fun _ => none) 2).derivs = 2 ∧
    (App.rollUntilLikelyLand "NZ" "publicish" "s" (fun _ => none) 2).spot.isSome
      = true := by
  refine ⟨by decide!, by decide!, by decide!⟩

/-- C5 (amended).  For every `maxAttempts ≥ 1` and any oracle behaviour,
both orchestrators perform at most `maxAttempts` derivations and always
return a result object; on exhaustion, `part_001`'s `rollUntilGood` returns
the last candidate remarked `level = "exhausted"`, `ok = false`, while
`app.js`'s `rollUntilLikelyLand` returns the last candidate with the last
completed (negative) check, or with no check at all when every call threw. -/
theorem C5_amended_retry_bound
    (c m us : String) (tileMeters : ℚ) (cosFn : ℚ → ℚ)
    (nomO : Nat → Option V3.CheckN) (overO : Nat → Option Nat)
    (oracle : Nat → Option App.CheckA) (maxAttempts : Nat) (hmax : 1 ≤ maxAttempts) :
    ((V3.rollUntilGood c m us tileMeters cosFn nomO overO maxAttempts).2
        ≤ maxAttempts ∧
     ((V3.rollUntilGood c m us tileMeters cosFn nomO overO maxAttempts).1).isSome
        = true) ∧
    ((App.rollUntilLikelyLand c m us oracle maxAttempts).derivs ≤ maxAttempts ∧
     (App.rollUntilLikelyLand c m us oracle maxAttempts).spot.isSome = true) ∧
    ((∀ j, ((V3.strongLandCheck (nomO j) (overO j) "publicish").getD
        (V3.errorCheck "publicish")).ok = false) →
      ∃ g, (V3.rollUntilGood c "publicish" us tileMeters cosFn nomO overO
          maxAttempts).1 = some g ∧
        g.check.level = "exhausted" ∧ g.check.ok = false) := by
  refine ⟨⟨?_, ?_⟩, ⟨?_, ?_⟩, fun hall => ?_⟩
  · simpa using goodGo_derivs_le c m us tileMeters cosFn nomO overO maxAttempts 1 none 0
  · exact goodGo_isSome c m us tileMeters cosFn nomO overO maxAttempts 1 none 0
      (Or.inr hmax)
  · simpa using rollGo_derivs_le c m us oracle maxAttempts 1 none none 0
  · exact rollGo_spot_isSome c m us oracle maxAttempts 1 none none 0 (Or.inr hmax)
  · exact goodGo_exhausts c us tileMeters cosFn nomO overO hall maxAttempts 1 none 0
      (Or.inr hmax)

/-- Witness for the amended C5: strict mode, both oracles always failing,
budget 2: the claim bound holds and the exhaustion branch fires. -/
theorem C5_amended_retry_bound_witness :
    1 ≤ 2 ∧
    (((V3.rollUntilGood "NZ" "publicish" "s" 1 (fun _ => 1) (fun _ => none)
        (fun _ => none) 2).2 ≤ 2 ∧
      ((V3.rollUntilGood "NZ" "publicish" "s" 1 (fun _ => 1) (fun _ => none)
        (fun _ => none) 2).1).isSome = true) ∧
     ((App.rollUntilLikelyLand "NZ" "publicish" "s" (fun _ => none) 2).derivs ≤ 2 ∧
      (App.rollUntilLikelyLand "NZ" "publicish" "s" (fun _ => none) 2).spot.isSome
        = true) ∧
     ((∀ j, ((V3.strongLandCheck ((fun _ : Nat => none) j) ((fun _ : Nat => none) j)
          "publicish").getD (V3.errorCheck "publicish")).ok = false) →
       ∃ g, (V3.rollUntilGood "NZ" "publicish" "s" 1 (fun _ => 1) (fun _ => none)
          (fun _ => none) 2).1 = some g ∧
         g.check.level = "exhausted" ∧ g.check.ok = false)) :=
  ⟨by decide,
   C5_amended_retry_bound "NZ" "publicish" "s" 1 (fun _ => 1) (fun _ => none)
     (fun _ => none) (fun _ => none) 2 (by decide)⟩

/-- C6 counterexample.  Strict mode, budget 10, an oracle whose calls
complete (with negative results) on attempts 1–2 and throw from attempt 3:
after a single error — with checks having succeeded before and seven
attempts of budget left — `app.js`'s `rollUntilLikelyLand` stops and
returns the current candidate with the not-accepted placeholder check.
This contradicts the claim that it falls back only after a small number of
consecutive errors with no check ever having succeeded. -/
theorem C6_counterexample :
    c6oracle 1 = some negChk ∧ c6oracle 2 = some negChk ∧ c6oracle 3 = none ∧
    (App.rollUntilLikelyLand "NZ" "publicish" "s" c6oracle 10).derivs = 3 ∧
    (App.rollUntilLikelyLand "NZ" "publicish" "s" c6oracle 10).check =
      some App.lookupUnavailable ∧
    App.lookupUnavailable.ok = false := by
  refine ⟨rfl, rfl, rfl, by decide!, by decide!, rfl⟩

/-- C6 (amended).  In strict mode a failed check call never propagates (the
orchestrator still returns a result object) and the failed attempt counts
against the retry budget.  But the fallback policies are as follows:
`app.js` keeps retrying on errors at attempts 1–2, and on any error at
attempt `i ≥ 3` it stops and returns the current candidate with a
not-accepted placeholder check, regardless of whether any check succeeded
before; `part_001` never stops early on a failed call — the attempt records
a not-accepted `error` check and the loop retries until a check passes or
the budget is exhausted. -/
theorem C6_amended_soft_failure
    (c us : String) (oracle : Nat → Option App.CheckA)
    (nomO : Nat → Option V3.CheckN) (overO : Nat → Option Nat)
    (tileMeters : ℚ) (cosFn : ℚ → ℚ)
    (i fuel d maxAttempts : Nat) (sp : Option Spot) (ck : Option App.CheckA)
    (best : Option V3.GSpot)
    (hor : oracle i = none) (hnom : nomO i = none) (hmax : 1 ≤ maxAttempts) :
    (i < 3 →
      App.rollGo c "publicish" us oracle i (fuel + 1) sp ck d =
        App.rollGo c "publicish" us oracle (i + 1) fuel
          (some (App.rollSpot c "publicish" us i)) ck (d + 1)) ∧
    (3 ≤ i →
      App.rollGo c "publicish" us oracle i (fuel + 1) sp ck d =
        ⟨some (App.rollSpot c "publicish" us i), some App.lookupUnavailable, d + 1⟩ ∧
      App.lookupUnavailable.ok = false) ∧
    (V3.goodGo c "publicish" us tileMeters cosFn nomO overO i (fuel + 1) best d =
      V3.goodGo c "publicish" us tileMeters cosFn nomO overO (i + 1) fuel
        (some ⟨V3.rollCenter c "publicish" us i,
          V3.makeTileFromCenter (cosFn (V3.rollCenter c "publicish" us i).lat)
            (V3.rollCenter c "publicish" us i).lat
            (V3.rollCenter c "publicish" us i).lon tileMeters,
          V3.errorCheck "publicish"⟩) (d + 1) ∧
     (V3.errorCheck "publicish").ok = false) ∧
    ((App.rollUntilLikelyLand c "publicish" us oracle maxAttempts).spot.isSome
        = true ∧
     ((V3.rollUntilGood c "publicish" us tileMeters cosFn nomO overO
        maxAttempts).1).isSome = true) := by
  refine ⟨fun hi => ?_, fun hi => ?_, ⟨?_, rfl⟩, ?_, ?_⟩
  · simp only [App.rollGo, hor]
    rw [if_neg (by omega)]
  · refine ⟨?_, rfl⟩
    simp only [App.rollGo, hor]
    rw [if_pos hi]
  · have herr : V3.strongLandCheck (nomO i) (overO i) "publicish" = none := by
      rw [hnom]
      rfl
    simp only [V3.goodGo, herr]
    rw [if_neg (by simp), if_neg (by simp [V3.errorCheck])]
    rfl
  · exact rollGo_spot_isSome c "publicish" us oracle maxAttempts 1 none none 0
      (Or.inr hmax)
  · exact goodGo_isSome c "publicish" us tileMeters cosFn nomO overO maxAttempts 1
      none 0 (Or.inr hmax)

/-- Witness for the amended C6 at concrete failing calls (attempt 1, one
unit of fuel left, budget 1). -/
theorem C6_amended_soft_failure_witness :
    ((fun _ : Nat => (none : Option App.CheckA)) 1 = none ∧
     (fun _ : Nat => (none : Option V3.CheckN)) 1 = none ∧ 1 ≤ 1) ∧
    ((1 < 3 →
      App.rollGo "NZ" "publicish" "s" (fun _ => none) 1 (0 + 1) none none 0 =
        App.rollGo "NZ" "publicish" "s" (fun _ => none) (1 + 1) 0
          (some (App.rollSpot "NZ" "publicish" "s" 1)) none (0 + 1)) ∧
     (3 ≤ 1 →
      App.rollGo "NZ" "publicish" "s" (fun _ => none) 1 (0 + 1) none none 0 =
        ⟨some (App.rollSpot "NZ" "publicish" "s" 1), some App.lookupUnavailable,
         0 + 1⟩ ∧
      App.lookupUnavailable.ok = false) ∧
     (V3.goodGo "NZ" "publicish" "s" 1 (fun _ => 1) (fun _ => none) (fun _ => none)
        1 (0 + 1) none 0 =
      V3.goodGo "NZ" "publicish" "s" 1 (fun _ => 1) (fun _ => none) (fun _ => none)
        (1 + 1) 0
        (some ⟨V3.rollCenter "NZ" "publicish" "s" 1,
          V3.makeTileFromCenter ((fun _ : ℚ => (1 : ℚ))
              (V3.rollCenter "NZ" "publicish" "s" 1).lat)
            (V3.rollCenter "NZ" "publicish" "s" 1).lat
            (V3.rollCenter "NZ" "publicish" "s" 1).lon 1,
          V3.errorCheck "publicish"⟩) (0 + 1) ∧
      (V3.errorCheck "publicish").ok = false) ∧
     ((App.rollUntilLikelyLand "NZ" "publicish" "s" (fun _ => none) 1).spot.isSome
        = true ∧
      ((V3.rollUntilGood "NZ" "publicish" "s" 1 (fun _ => 1) (fun _ => none)
         (fun _ => none) 1).1).isSome = true)) :=
  ⟨⟨rfl, rfl, by decide⟩,
   C6_amended_soft_failure "NZ" "s" (fun _ => none) (fun _ => none) (fun _ => none)
     1 (fun _ => 1) 1 0 0 1 none none none rfl rfl (by decide)⟩
